import Mathlib

set_option maxHeartbeats 1000000

/-!
Verification of the Garmin MCP OAuth provider (src/garmin_mcp/oauth_provider.py)
and session manager (src/garmin_mcp/session_manager.py).

The SQLite tables are modelled as association lists keyed by their primary key
column; SQL SELECT is List.find?, DELETE is List.filter, INSERT is cons (the
inserted token/code values come from secrets.token_urlsafe and are passed in as
explicit parameters; theorems that depend on primary-key uniqueness take it as
a hypothesis).  Python dicts are association lists with dict-style lookup,
insert and pop.  Wall-clock time (time.time()) is an explicit Nat parameter.
Python strings are Lean Strings; the "," .join / .split(",") pair used for the
scopes column is modelled character-exactly on String.data.
-/

namespace GarminMcp

/-- Python s.split(sep) at the character level: splitting the empty list gives
one empty group, matching the Python behaviour of returning one element. -/
def splitChars (sep : Char) : List Char → List (List Char)
  | [] => [[]]
  | c :: cs =>
    if c = sep then
      [] :: splitChars sep cs
    else
      match splitChars sep cs with
      | [] => [[c]]
      | g :: gs => (c :: g) :: gs

/-- Python sep.join(...) at the character level. -/
def joinChars (sep : Char) : List (List Char) → List Char
  | [] => []
  | [l] => l
  | l :: ls => l ++ sep :: joinChars sep ls

/-- Python s.split(sep) on strings. -/
def pySplit (sep : Char) (s : String) : List String :=
  (splitChars sep s.data).map String.mk

/-- Python sep.join(ss) on strings. -/
def pyJoin (sep : Char) (ss : List String) : String :=
  String.mk (joinChars sep (ss.map String.data))

/-- The provider stores scopes as a comma-joined string: ",".join(scopes). -/
def joinScopes (ss : List String) : String := pyJoin ',' ss

/-- Reading scopes back from a row: row["scopes"].split(",") if row["scopes"] else []. -/
def parseScopes (s : String) : List String :=
  if s = "" then [] else pySplit ',' s

theorem splitChars_ne_nil (sep : Char) : ∀ cs, splitChars sep cs ≠ []
  | [] => by simp [splitChars]
  | c :: cs => by
    by_cases h : c = sep
    · simp [splitChars, h]
    · have ih := splitChars_ne_nil sep cs
      cases hs : splitChars sep cs with
      | nil => exact absurd hs ih
      | cons g gs => simp [splitChars, h, hs]

theorem splitChars_no_sep (sep : Char) (l : List Char) (h : sep ∉ l) :
    splitChars sep l = [l] := by
  induction l with
  | nil => rfl
  | cons c l ih =>
    have hc : ¬ c = sep := fun e => h (e ▸ List.mem_cons_self c l)
    have hl : sep ∉ l := fun m => h (List.mem_cons_of_mem _ m)
    simp only [splitChars, if_neg hc, ih hl]

theorem splitChars_append (sep : Char) (l rest : List Char) (h : sep ∉ l) :
    splitChars sep (l ++ sep :: rest) = l :: splitChars sep rest := by
  induction l with
  | nil => simp [splitChars]
  | cons c l ih =>
    have hc : ¬ c = sep := fun e => h (e ▸ List.mem_cons_self c l)
    have hl : sep ∉ l := fun m => h (List.mem_cons_of_mem _ m)
    simp only [List.cons_append, splitChars, if_neg hc, List.append_eq, ih hl]

theorem splitChars_joinChars (sep : Char) :
    ∀ ls, ls ≠ [] → (∀ l ∈ ls, sep ∉ l) →
      splitChars sep (joinChars sep ls) = ls
  | [], hne, _ => absurd rfl hne
  | [x], _, h => by
    simpa [joinChars] using splitChars_no_sep sep x (h x (List.mem_singleton_self x))
  | x :: y :: t, _, h => by
    have hx : sep ∉ x := h x (List.mem_cons_self x _)
    have ht : ∀ l ∈ y :: t, sep ∉ l := fun l hl => h l (List.mem_cons_of_mem _ hl)
    have ih := splitChars_joinChars sep (y :: t) (by simp) ht
    simp only [joinChars, splitChars_append sep x _ hx, ih]

theorem string_mk_data (s : String) : String.mk s.data = s := rfl

theorem joinChars_ne_nil (sep : Char) (x : List Char) (y : List Char) (t : List (List Char)) :
    joinChars sep (x :: y :: t) ≠ [] := by
  cases x <;> simp [joinChars]

/-- Round trip through the scopes column: exact provided no scope contains a
comma and the scope list is not the single empty string. -/
theorem parseScopes_joinScopes (ss : List String)
    (h : ∀ s ∈ ss, (',' : Char) ∉ s.data) (hne : ss ≠ [""]) :
    parseScopes (joinScopes ss) = ss := by
  match ss with
  | [] => rfl
  | s :: rest =>
    have hjoin : joinScopes (s :: rest) ≠ "" := by
      match rest with
      | [] =>
        have hs : s ≠ "" := by
          intro e; exact hne (by rw [e])
        intro e
        apply hs
        have : s.data = [] := congrArg String.data e
        calc s = String.mk s.data := rfl
          _ = String.mk [] := by rw [this]
          _ = "" := rfl
      | y :: t =>
        intro e
        exact joinChars_ne_nil ',' s.data y.data (t.map String.data)
          (congrArg String.data e)
    have hmem : ∀ l ∈ (s :: rest).map String.data, (',' : Char) ∉ l := by
      intro l hl
      rcases List.mem_map.1 hl with ⟨a, ha, rfl⟩
      exact h a ha
    have hsplit := splitChars_joinChars ',' ((s :: rest).map String.data)
      (by simp) hmem
    simp only [parseScopes, if_neg hjoin]
    show (splitChars ',' (joinChars ',' ((s :: rest).map String.data))).map String.mk
        = s :: rest
    rw [hsplit, List.map_map]
    have hid : String.mk ∘ String.data = id := funext string_mk_data
    rw [hid, List.map_id]

/-! Python dict operations on association lists. -/

/-- Python dict lookup d.get(k). -/
def lookupD {α : Type} : List (String × α) → String → Option α
  | [], _ => none
  | p :: ps, k => if p.1 = k then some p.2 else lookupD ps k

/-- Remove the binding for a key (Python del / pop side effect). -/
def removeD {α : Type} : List (String × α) → String → List (String × α)
  | [], _ => []
  | p :: ps, k => if p.1 = k then removeD ps k else p :: removeD ps k

/-- Python dict assignment d[k] = v. -/
def insertD {α : Type} (m : List (String × α)) (k : String) (v : α) : List (String × α) :=
  (k, v) :: removeD m k

theorem lookupD_removeD {α : Type} (m : List (String × α)) (k k' : String) :
    lookupD (removeD m k) k' = if k' = k then none else lookupD m k' := by
  induction m with
  | nil => simp [removeD, lookupD]
  | cons p ps ih =>
    by_cases h1 : p.1 = k <;> by_cases h2 : k' = k <;> by_cases h3 : p.1 = k' <;>
      simp_all [removeD, lookupD]

theorem lookupD_insertD {α : Type} (m : List (String × α)) (k k' : String) (v : α) :
    lookupD (insertD m k v) k' = if k' = k then some v else lookupD m k' := by
  by_cases h : k' = k
  · simp [insertD, lookupD, h]
  · have hk : ¬ k = k' := fun e => h e.symm
    simp [insertD, lookupD, lookupD_removeD, h, hk]

theorem lookupD_insertD_self {α : Type} (m : List (String × α)) (k : String) (v : α) :
    lookupD (insertD m k v) k = some v := by
  simp [lookupD_insertD]

theorem lookupD_removeD_self {α : Type} (m : List (String × α)) (k : String) :
    lookupD (removeD m k) k = none := by
  simp [lookupD_removeD]

/-! Data model: rows of the SQLite tables created in _init_db, the in-memory
structures of the provider and the session manager, and the value objects of
the MCP auth SDK (AuthorizationCode, RefreshToken, AccessToken, OAuthToken). -/

/-- One row of the auth_codes table. -/
structure AuthCodeRow where
  code : String
  client_id : String
  user_id : Option String
  scopes : String
  code_challenge : String
  redirect_uri : String
  redirect_uri_provided_explicitly : Bool
  client_state : Option String
  expires_at : Nat
deriving DecidableEq

/-- One row of the access_tokens table. -/
structure AccessTokenRow where
  token : String
  client_id : String
  user_id : Option String
  scopes : String
  expires_at : Nat
deriving DecidableEq

/-- One row of the refresh_tokens table (expires_at REAL is nullable). -/
structure RefreshTokenRow where
  token : String
  client_id : String
  user_id : Option String
  scopes : String
  expires_at : Option Nat
deriving DecidableEq

/-- One row of the users table. -/
structure UserRow where
  id : String
  garmin_email : String
  created_at : Nat
deriving DecidableEq

/-- OAuthClientInformationFull: the client id together with the rest of the
metadata, which the provider stores as an opaque JSON blob
(model_dump_json / model_validate_json round-trip modelled as identity). -/
structure ClientInfo where
  client_id : String
  meta : String
deriving DecidableEq

/-- A _PendingMfa entry: the opaque garth client_state dict is modelled as an
opaque string. -/
structure PendingMfa where
  client_state : String
  garmin_email : String
  created_at : Nat
deriving DecidableEq

/-- _MFA_TTL = 300 seconds; is_expired: time.time() - created_at > _MFA_TTL. -/
def PendingMfa.is_expired (p : PendingMfa) (now : Nat) : Bool :=
  300 < now - p.created_at

/-- The pair of garth tokens (OAuth1Token, OAuth2Token) written to the per-user
token directory, modelled as opaque strings. -/
structure GarthCreds where
  oauth1 : String
  oauth2 : String
deriving DecidableEq

/-- An upstream garminconnect.Garmin client handle (opaque). -/
structure Garmin where
  handle : Nat
deriving DecidableEq

/-- A _CachedClient entry: expires_at = time.time() + CACHE_TTL at creation. -/
structure CachedClient where
  client : Garmin
  expires_at : Nat
deriving DecidableEq

/-- is_expired: time.time() > expires_at. -/
def CachedClient.is_expired (c : CachedClient) (now : Nat) : Bool :=
  c.expires_at < now

/-- SessionManager state: the in-memory client cache, the in-memory
token-to-user map, and the on-disk per-user credential directories
(storage_path/user_id, modelled as a map from user id to stored tokens). -/
structure SMState where
  cache : List (String × CachedClient)
  tokenUserMap : List (String × String)
  disk : List (String × GarthCreds)
deriving DecidableEq

/-- Whole-server state: the five SQLite tables, the provider's in-memory
_pending_mfa dict, and the session manager. -/
structure ServerState where
  users : List UserRow
  oauthClients : List (String × ClientInfo)
  authCodes : List AuthCodeRow
  accessTokens : List AccessTokenRow
  refreshTokens : List RefreshTokenRow
  pendingMfa : List (String × PendingMfa)
  sm : SMState
deriving DecidableEq

/-- mcp.server.auth.provider.AuthorizationCode value object. -/
structure AuthorizationCode where
  code : String
  client_id : String
  scopes : List String
  code_challenge : String
  redirect_uri : String
  redirect_uri_provided_explicitly : Bool
  expires_at : Nat
deriving DecidableEq

/-- mcp.server.auth.provider.RefreshToken value object. -/
structure RefreshToken where
  token : String
  client_id : String
  scopes : List String
  expires_at : Option Nat
deriving DecidableEq

/-- mcp.server.auth.provider.AccessToken value object. -/
structure AccessToken where
  token : String
  client_id : String
  scopes : List String
  expires_at : Nat
deriving DecidableEq

/-- mcp.server.auth.provider.OAuthToken value object. -/
structure OAuthToken where
  access_token : String
  token_type : String
  expires_in : Nat
  refresh_token : String
  scope : String
deriving DecidableEq

/-- mcp.server.auth.provider.AuthorizationParams (the fields authorize reads). -/
structure AuthorizationParams where
  scopes : Option (List String)
  code_challenge : String
  redirect_uri : String
  redirect_uri_provided_explicitly : Bool
  state : Option String
deriving DecidableEq

/-- The starlette responses the login/MFA flow produces.  The two hard error
pages are kept as their literal HTML bodies with their status codes; the
rendered login and MFA forms are abstracted to constructors carrying the data
interpolated into the template (state token and error message). -/
inductive Response where
  | htmlResponse (body : String) (status : Nat)
  | redirectResponse (redirect_uri : String) (code : String) (client_state : Option String)
  | mfaPage (state : String) (error : String)
  | loginPage (state : String) (error : String)
deriving DecidableEq

/-- Body of the expired-authorization page rendered by _complete_auth_flow. -/
def authExpiredBody : String :=
  "<h1>Authorization expired</h1><p>Please try again.</p>"

/-- Body of the expired-session page rendered by the MFA endpoints. -/
def sessionExpiredBody : String :=
  "<h1>Session expired</h1><p>Please start the login process again.</p>"

namespace SessionManager

/-- set_token_user_mapping: self._token_user_map[token] = user_id. -/
def set_token_user_mapping (sm : SMState) (token user_id : String) : SMState :=
  { sm with tokenUserMap := insertD sm.tokenUserMap token user_id }

/-- get_user_id_for_token: self._token_user_map.get(token). -/
def get_user_id_for_token (sm : SMState) (token : String) : Option String :=
  lookupD sm.tokenUserMap token

/-- get_client: consult the cache first (unexpired hit returns the cached
client); otherwise restore from the on-disk token directory.  Constructing
Garmin() and calling login(token_dir) may raise; that restore step is the
loginFromDir parameter, returning none on failure. -/
def get_client (sm : SMState) (user_id : String) (now : Nat)
    (loginFromDir : GarthCreds → Option Garmin) : Option Garmin × SMState :=
  match lookupD sm.cache user_id with
  | some cached =>
    if cached.is_expired now then
      match lookupD sm.disk user_id with
      | none => (none, sm)
      | some creds =>
        match loginFromDir creds with
        | some g => (some g, { sm with cache := insertD sm.cache user_id ⟨g, now + 3600⟩ })
        | none => (none, sm)
    else
      (some cached.client, sm)
  | none =>
    match lookupD sm.disk user_id with
    | none => (none, sm)
    | some creds =>
      match loginFromDir creds with
      | some g => (some g, { sm with cache := insertD sm.cache user_id ⟨g, now + 3600⟩ })
      | none => (none, sm)

/-- create_session_from_garth_tokens: dump the garth tokens into the per-user
directory (created if absent, overwriting previous content) and pop any cached
entry for the user. -/
def create_session_from_garth_tokens (sm : SMState) (user_id : String)
    (oauth1_token oauth2_token : String) : SMState :=
  { sm with disk := insertD sm.disk user_id ⟨oauth1_token, oauth2_token⟩,
            cache := removeD sm.cache user_id }

/-- remove_session: delete the cache entry if present, delete the on-disk
directory if present, and report whether anything was removed. -/
def remove_session (sm : SMState) (user_id : String) : Bool × SMState :=
  let cacheHit := (lookupD sm.cache user_id).isSome
  let cache1 := if cacheHit then removeD sm.cache user_id else sm.cache
  let diskHit := (lookupD sm.disk user_id).isSome
  let disk1 := if diskHit then removeD sm.disk user_id else sm.disk
  (cacheHit || diskHit, { sm with cache := cache1, disk := disk1 })

/-- has_session: os.path.isdir on the per-user token directory only; the
in-memory cache is not consulted. -/
def has_session (sm : SMState) (user_id : String) : Bool :=
  (lookupD sm.disk user_id).isSome

end SessionManager

namespace GarminOAuthProvider

/-- Python: if user_id and self.session_manager: set_token_user_mapping(...).
The session manager is present in remote mode; the user id must be a non-None,
non-empty string for the mapping to be recorded. -/
def applyTokenMapping (st : ServerState) (token : String) (user_id : Option String) :
    ServerState :=
  match user_id with
  | some u =>
    if u = "" then st
    else { st with sm := SessionManager.set_token_user_mapping st.sm token u }
  | none => st

/-- get_client: SELECT client_info_json FROM oauth_clients WHERE client_id = ?. -/
def get_client (st : ServerState) (client_id : String) : Option ClientInfo :=
  lookupD st.oauthClients client_id

/-- register_client: INSERT OR REPLACE INTO oauth_clients, an upsert keyed by
client id that can never hit a uniqueness conflict. -/
def register_client (st : ServerState) (client_info : ClientInfo) : ServerState :=
  { st with oauthClients := insertD st.oauthClients client_info.client_id client_info }

/-- authorize: insert a placeholder auth_codes row carrying the request data
with user_id NULL and a 15-minute expiry, keyed by a fresh state token
(secrets.token_urlsafe(32), passed in as state_token), and return the login
URL. -/
def authorize (st : ServerState) (client : ClientInfo) (params : AuthorizationParams)
    (state_token : String) (now : Nat) (server_url : String) : String × ServerState :=
  (server_url ++ "/login?state=" ++ state_token,
   { st with authCodes :=
      { code := state_token
        client_id := client.client_id
        user_id := none
        scopes := joinScopes (params.scopes.getD [])
        code_challenge := params.code_challenge
        redirect_uri := params.redirect_uri
        redirect_uri_provided_explicitly := params.redirect_uri_provided_explicitly
        client_state := params.state
        expires_at := now + 900 } :: st.authCodes })

/-- load_authorization_code: SELECT * FROM auth_codes WHERE code = ? AND
client_id = ? AND user_id IS NOT NULL, rejecting expired rows. -/
def load_authorization_code (st : ServerState) (client : ClientInfo)
    (authorization_code : String) (now : Nat) : Option AuthorizationCode :=
  match st.authCodes.find? (fun r =>
      r.code == authorization_code && r.client_id == client.client_id && r.user_id.isSome) with
  | none => none
  | some row =>
    if row.expires_at < now then none
    else some
      { code := row.code
        client_id := row.client_id
        scopes := parseScopes row.scopes
        code_challenge := row.code_challenge
        redirect_uri := row.redirect_uri
        redirect_uri_provided_explicitly := row.redirect_uri_provided_explicitly
        expires_at := row.expires_at }

/-- exchange_authorization_code: read the stored user id for the code (None if
the row is gone), delete the row, insert a fresh access token (1 hour) and a
fresh refresh token (30 days) carrying the descriptor's scopes, record the
token-to-user mapping, and return the pair.  freshAccess / freshRefresh are
the two secrets.token_urlsafe(48) values. -/
def exchange_authorization_code (st : ServerState) (client : ClientInfo)
    (authorization_code : AuthorizationCode) (now : Nat)
    (freshAccess freshRefresh : String) : OAuthToken × ServerState :=
  let user_id : Option String :=
    (st.authCodes.find? (fun r => r.code == authorization_code.code)).bind
      (fun row => row.user_id)
  let scopes_str := joinScopes authorization_code.scopes
  let st1 : ServerState :=
    { st with
      authCodes := st.authCodes.filter (fun r => r.code != authorization_code.code)
      accessTokens :=
        { token := freshAccess, client_id := client.client_id, user_id := user_id,
          scopes := scopes_str, expires_at := now + 3600 } :: st.accessTokens
      refreshTokens :=
        { token := freshRefresh, client_id := client.client_id, user_id := user_id,
          scopes := scopes_str, expires_at := some (now + 2592000) } :: st.refreshTokens }
  ({ access_token := freshAccess
     token_type := "Bearer"
     expires_in := 3600
     refresh_token := freshRefresh
     scope := pyJoin ' ' authorization_code.scopes },
   applyTokenMapping st1 freshAccess user_id)

/-- load_access_token: SELECT * FROM access_tokens WHERE token = ?, rejecting
expired rows; a successful load re-asserts the token-to-user mapping. -/
def load_access_token (st : ServerState) (token : String) (now : Nat) :
    Option AccessToken × ServerState :=
  match st.accessTokens.find? (fun r => r.token == token) with
  | none => (none, st)
  | some row =>
    if row.expires_at < now then (none, st)
    else
      (some { token := row.token
              client_id := row.client_id
              scopes := parseScopes row.scopes
              expires_at := row.expires_at },
       applyTokenMapping st token row.user_id)

/-- Python truthiness of the nullable expires_at column: None and 0 are falsy. -/
def truthyExpires : Option Nat → Bool
  | none => false
  | some n => n != 0

/-- load_refresh_token: SELECT * FROM refresh_tokens WHERE token = ? AND
client_id = ?; the expiry check and the returned expires_at both go through
Python truthiness of the nullable column. -/
def load_refresh_token (st : ServerState) (client : ClientInfo)
    (refresh_token : String) (now : Nat) : Option RefreshToken :=
  match st.refreshTokens.find? (fun r =>
      r.token == refresh_token && r.client_id == client.client_id) with
  | none => none
  | some row =>
    if truthyExpires row.expires_at && decide (row.expires_at.getD 0 < now) then none
    else some
      { token := row.token
        client_id := row.client_id
        scopes := parseScopes row.scopes
        expires_at := if truthyExpires row.expires_at then row.expires_at else none }

/-- exchange_refresh_token: read the stored user id for the old token (None if
the row is gone), delete the old row, mint a fresh access + refresh pair with
scopes = requested scopes if non-empty else the descriptor's scopes (Python:
scopes or refresh_token.scopes), record the token-to-user mapping, and return
the pair. -/
def exchange_refresh_token (st : ServerState) (client : ClientInfo)
    (refresh_token : RefreshToken) (scopes : List String) (now : Nat)
    (freshAccess freshRefresh : String) : OAuthToken × ServerState :=
  let user_id : Option String :=
    (st.refreshTokens.find? (fun r => r.token == refresh_token.token)).bind
      (fun row => row.user_id)
  let use_scopes := if scopes = [] then refresh_token.scopes else scopes
  let scopes_str := joinScopes use_scopes
  let st1 : ServerState :=
    { st with
      accessTokens :=
        { token := freshAccess, client_id := client.client_id, user_id := user_id,
          scopes := scopes_str, expires_at := now + 3600 } :: st.accessTokens
      refreshTokens :=
        { token := freshRefresh, client_id := client.client_id, user_id := user_id,
          scopes := scopes_str, expires_at := some (now + 2592000) } ::
          st.refreshTokens.filter (fun r => r.token != refresh_token.token) }
  ({ access_token := freshAccess
     token_type := "Bearer"
     expires_in := 3600
     refresh_token := freshRefresh
     scope := pyJoin ' ' use_scopes },
   applyTokenMapping st1 freshAccess user_id)

/-- revoke_token: unconditional delete of the value from both token tables. -/
def revoke_token (st : ServerState) (token : String) : ServerState :=
  { st with
    accessTokens := st.accessTokens.filter (fun r => r.token != token)
    refreshTokens := st.refreshTokens.filter (fun r => r.token != token) }

/-- _get_or_create_user: SELECT id FROM users WHERE garmin_email = ?, inserting
a fresh secrets.token_hex(16) id (passed in as freshUserId) when absent. -/
def get_or_create_user (st : ServerState) (garmin_email : String) (now : Nat)
    (freshUserId : String) : String × ServerState :=
  match st.users.find? (fun u => u.garmin_email == garmin_email) with
  | some u => (u.id, st)
  | none =>
    (freshUserId,
     { st with users := { id := freshUserId, garmin_email := garmin_email,
                          created_at := now } :: st.users })

/-- _complete_auth_flow: find the placeholder row (code = state AND user_id IS
NULL); when it is missing or consumed or expired render the expired page and
change nothing; otherwise insert the real code row (fresh
secrets.token_urlsafe(32) code, 5-minute expiry), delete the placeholder, and
redirect to the client with the new code and the stored client state. -/
def complete_auth_flow (st : ServerState) (state : String) (user_id : String)
    (now : Nat) (freshCode : String) : Response × ServerState :=
  match st.authCodes.find? (fun r => r.code == state && r.user_id.isNone) with
  | none => (.htmlResponse authExpiredBody 400, st)
  | some row =>
    if row.expires_at < now then (.htmlResponse authExpiredBody 400, st)
    else
      let newRow : AuthCodeRow :=
        { code := freshCode, client_id := row.client_id, user_id := some user_id,
          scopes := row.scopes, code_challenge := row.code_challenge,
          redirect_uri := row.redirect_uri,
          redirect_uri_provided_explicitly := row.redirect_uri_provided_explicitly,
          client_state := row.client_state, expires_at := now + 300 }
      (.redirectResponse row.redirect_uri freshCode row.client_state,
       { st with authCodes := (newRow :: st.authCodes).filter (fun r => r.code != state) })

/-- get_mfa_page: read-only check of the pending MFA entry; missing or expired
renders the expired page, otherwise the MFA form is rendered with the given
error text. -/
def get_mfa_page (st : ServerState) (state : String) (error : String) (now : Nat) :
    Response :=
  match lookupD st.pendingMfa state with
  | none => .htmlResponse sessionExpiredBody 400
  | some pending =>
    if pending.is_expired now then .htmlResponse sessionExpiredBody 400
    else .mfaPage state error

/-- handle_mfa_callback: pop the pending entry (single use); missing or expired
is terminal; garth resume_login (the resume_login parameter; none on any
exception) failing restores the entry and re-renders for a retry; success
creates the user, persists the session, and completes the auth flow.  The
mfa_code parameter stands for the stripped form field. -/
def handle_mfa_callback (st : ServerState) (state mfa_code : String) (now : Nat)
    (resume_login : String → String → Option (String × String))
    (freshUserId freshAuthCode : String) : Response × ServerState :=
  if state = "" || mfa_code = "" then
    (get_mfa_page st state "Verification code is required." now, st)
  else
    match lookupD st.pendingMfa state with
    | none => (.htmlResponse sessionExpiredBody 400, st)
    | some pending =>
      let st1 : ServerState := { st with pendingMfa := removeD st.pendingMfa state }
      if pending.is_expired now then
        (.htmlResponse sessionExpiredBody 400, st1)
      else
        match resume_login pending.client_state mfa_code with
        | none =>
          let st2 : ServerState :=
            { st1 with pendingMfa := insertD st1.pendingMfa state pending }
          (get_mfa_page st2 state "Invalid verification code. Please try again." now, st2)
        | some tokens =>
          let helper := get_or_create_user st1 pending.garmin_email now freshUserId
          let sm3 := SessionManager.create_session_from_garth_tokens helper.2.sm
            helper.1 tokens.1 tokens.2
          let st3 : ServerState := { helper.2 with sm := sm3 }
          complete_auth_flow st3 state helper.1 now freshAuthCode

end GarminOAuthProvider

/-! Helper lemmas about the operations. -/

theorem applyTokenMapping_authCodes (st : ServerState) (token : String)
    (user_id : Option String) :
    (GarminOAuthProvider.applyTokenMapping st token user_id).authCodes = st.authCodes := by
  cases user_id with
  | none => rfl
  | some u =>
    simp only [GarminOAuthProvider.applyTokenMapping]
    split <;> rfl

theorem applyTokenMapping_accessTokens (st : ServerState) (token : String)
    (user_id : Option String) :
    (GarminOAuthProvider.applyTokenMapping st token user_id).accessTokens = st.accessTokens := by
  cases user_id with
  | none => rfl
  | some u =>
    simp only [GarminOAuthProvider.applyTokenMapping]
    split <;> rfl

theorem applyTokenMapping_refreshTokens (st : ServerState) (token : String)
    (user_id : Option String) :
    (GarminOAuthProvider.applyTokenMapping st token user_id).refreshTokens = st.refreshTokens := by
  cases user_id with
  | none => rfl
  | some u =>
    simp only [GarminOAuthProvider.applyTokenMapping]
    split <;> rfl

/-- After DELETE FROM auth_codes WHERE code = ?, no SELECT keyed on that code
can match. -/
theorem find?_authCodes_filter_self (l : List AuthCodeRow) (code cid : String) :
    (l.filter (fun r => r.code != code)).find?
      (fun r => r.code == code && r.client_id == cid && r.user_id.isSome) = none := by
  rw [List.find?_eq_none]
  intro r hr
  have hne := (List.mem_filter.1 hr).2
  simp only [bne_iff_ne, ne_eq] at hne
  simp [hne]

/-- After DELETE FROM refresh_tokens WHERE token = ?, no SELECT keyed on that
token can match. -/
theorem find?_refreshTokens_filter_self (l : List RefreshTokenRow) (tok cid : String) :
    (l.filter (fun r => r.token != tok)).find?
      (fun r => r.token == tok && r.client_id == cid) = none := by
  rw [List.find?_eq_none]
  intro r hr
  have hne := (List.mem_filter.1 hr).2
  simp only [bne_iff_ne, ne_eq] at hne
  simp [hne]

/-! Claim theorems. -/

/-- C8: registering the same client id twice is a conflict-free upsert
(INSERT OR REPLACE); get_client afterwards returns the second metadata —
last write wins. -/
theorem register_client_twice_last_write_wins (st : ServerState) (cid m1 m2 : String) :
    GarminOAuthProvider.get_client
      (GarminOAuthProvider.register_client
        (GarminOAuthProvider.register_client st ⟨cid, m1⟩) ⟨cid, m2⟩) cid
      = some ⟨cid, m2⟩ := by
  simp [GarminOAuthProvider.get_client, GarminOAuthProvider.register_client,
    lookupD_insertD_self]

/-- C7: create_session_from_garth_tokens evicts the cached entry and writes the
fresh credentials to disk, so the very next get_client restores from exactly
the newly written on-disk credentials (whatever the restore step yields on
them), never from a previously cached handle — even an unexpired one. -/
theorem persist_new_session_then_get_client (sm : SMState) (user_id o1 o2 : String)
    (now : Nat) (loginFromDir : GarthCreds → Option Garmin) :
    (SessionManager.get_client
        (SessionManager.create_session_from_garth_tokens sm user_id o1 o2)
        user_id now loginFromDir).1
      = loginFromDir ⟨o1, o2⟩ := by
  unfold SessionManager.get_client SessionManager.create_session_from_garth_tokens
  simp only [lookupD_removeD_self, lookupD_insertD_self]
  cases loginFromDir ⟨o1, o2⟩ <;> rfl

/-- C10: remove_session returns true exactly when an in-memory cache entry or
the on-disk directory existed; since has_session consults only the disk, a
cache-only session makes remove_session return true while has_session is
false. -/
theorem remove_session_spec :
    (∀ (sm : SMState) (user_id : String),
      (SessionManager.remove_session sm user_id).1
        = ((lookupD sm.cache user_id).isSome || SessionManager.has_session sm user_id))
    ∧ (∃ (sm : SMState) (user_id : String),
      (SessionManager.remove_session sm user_id).1 = true
      ∧ SessionManager.has_session sm user_id = false) := by
  constructor
  · intro sm user_id
    rfl
  · exact ⟨⟨[("u", ⟨⟨0⟩, 50⟩)], [], []⟩, "u", by decide, by decide⟩

/-- C4: when every auth_codes row with the given state token already carries a
user id (replayed, consumed state) — in particular when no row exists at all —
_complete_auth_flow renders the same "Authorization expired" page in both
cases and leaves the store untouched: no new authorization code is issued. -/
theorem complete_auth_flow_consumed_or_missing (st : ServerState)
    (state user_id : String) (now : Nat) (freshCode : String)
    (h : ∀ r ∈ st.authCodes, r.code = state → r.user_id ≠ none) :
    GarminOAuthProvider.complete_auth_flow st state user_id now freshCode
      = (.htmlResponse authExpiredBody 400, st) := by
  have hf : st.authCodes.find? (fun r => r.code == state && r.user_id.isNone) = none := by
    rw [List.find?_eq_none]
    intro r hr
    simp only [Bool.and_eq_true, beq_iff_eq, Option.isNone_iff_eq_none, not_and]
    exact h r hr
  simp only [GarminOAuthProvider.complete_auth_flow, hf]

/-- A state whose only row for state token s1 is already consumed. -/
def c4StateConsumed : ServerState :=
  ⟨[], [], [⟨"s1", "client-1", some "user-1", "a", "ch", "https://cb", true, none, 1000⟩],
   [], [], [], ⟨[], [], []⟩⟩

/-- A state with no row at all for state token s1. -/
def c4StateMissing : ServerState := ⟨[], [], [], [], [], [], ⟨[], [], []⟩⟩

theorem complete_auth_flow_consumed_or_missing_witness :
    (GarminOAuthProvider.complete_auth_flow c4StateConsumed "s1" "user-2" 100 "newcode"
      = (.htmlResponse authExpiredBody 400, c4StateConsumed))
    ∧ (GarminOAuthProvider.complete_auth_flow c4StateMissing "s1" "user-2" 100 "newcode"
      = (.htmlResponse authExpiredBody 400, c4StateMissing)) :=
  ⟨complete_auth_flow_consumed_or_missing c4StateConsumed "s1" "user-2" 100 "newcode"
      (by decide),
   complete_auth_flow_consumed_or_missing c4StateMissing "s1" "user-2" 100 "newcode"
      (by decide)⟩

/-- C1 (amended): exchange_authorization_code deletes the code row, so after
one exchange load_authorization_code returns nothing for that code, for every
client and time; the token endpoint loads the code before exchanging it, so a
second exchange of the same code fails at the protocol level.  The provider
method itself does not fail when called again directly: see the
counterexample. -/
theorem exchange_authorization_code_single_use (st : ServerState)
    (client client2 : ClientInfo) (ac : AuthorizationCode) (now now2 : Nat)
    (freshAccess freshRefresh : String) :
    GarminOAuthProvider.load_authorization_code
      ((GarminOAuthProvider.exchange_authorization_code st client ac now
          freshAccess freshRefresh).2)
      client2 ac.code now2 = none := by
  have hcodes : ((GarminOAuthProvider.exchange_authorization_code st client ac now
      freshAccess freshRefresh).2).authCodes
      = st.authCodes.filter (fun r => r.code != ac.code) := by
    simp only [GarminOAuthProvider.exchange_authorization_code]
    rw [applyTokenMapping_authCodes]
  unfold GarminOAuthProvider.load_authorization_code
  rw [hcodes, find?_authCodes_filter_self]

def c1Client : ClientInfo := ⟨"client-1", "meta"⟩

def c1Code : AuthorizationCode :=
  ⟨"code-1", "client-1", ["activities"], "ch", "https://cb", true, 1000⟩

def c1State0 : ServerState :=
  ⟨[], [], [⟨"code-1", "client-1", some "user-1", "activities", "ch", "https://cb",
    true, some "cs", 1000⟩], [], [], [], ⟨[], [], []⟩⟩

/-- The state after the code has been exchanged once (its row is deleted). -/
def c1State1 : ServerState :=
  (GarminOAuthProvider.exchange_authorization_code c1State0 c1Client c1Code 100
    "at1" "rt1").2

/-- C1 counterexample: a second direct call of exchange_authorization_code with
the already-exchanged code does not fail — it returns a fresh token pair (whose
stored rows carry a null user id). -/
theorem exchange_authorization_code_twice_returns_pair :
    (GarminOAuthProvider.exchange_authorization_code c1State1 c1Client c1Code 100
        "at2" "rt2").1
      = { access_token := "at2", token_type := "Bearer", expires_in := 3600,
          refresh_token := "rt2", scope := "activities" } := by
  decide

/-- C2 (amended): exchange_refresh_token deletes the old refresh-token row, so
after one exchange load_refresh_token returns nothing for the old token, for
every client and time (given that the freshly minted refresh value differs
from the old one, as secrets.token_urlsafe guarantees); the token endpoint
loads the refresh token before exchanging it, so a second refresh with the
same old token fails at the protocol level.  The provider method itself does
not fail when called again directly: see the counterexample. -/
theorem exchange_refresh_token_single_use (st : ServerState)
    (client client2 : ClientInfo) (rt : RefreshToken) (scopes : List String)
    (now now2 : Nat) (freshAccess freshRefresh : String)
    (hfresh : freshRefresh ≠ rt.token) :
    GarminOAuthProvider.load_refresh_token
      ((GarminOAuthProvider.exchange_refresh_token st client rt scopes now
          freshAccess freshRefresh).2)
      client2 rt.token now2 = none := by
  unfold GarminOAuthProvider.load_refresh_token GarminOAuthProvider.exchange_refresh_token
  rw [applyTokenMapping_refreshTokens]
  rw [List.find?_cons_of_neg _ (by simp [hfresh])]
  rw [find?_refreshTokens_filter_self]

def c2Client : ClientInfo := ⟨"client-1", "meta"⟩

def c2Rt : RefreshToken := ⟨"rt-old", "client-1", ["activities"], some 5000⟩

def c2State0 : ServerState :=
  ⟨[], [], [], [],
   [⟨"rt-old", "client-1", some "user-1", "activities", some 5000⟩], [],
   ⟨[], [], []⟩⟩

/-- The state after the refresh token has been exchanged once (its row is
deleted and a rotated pair was inserted). -/
def c2State1 : ServerState :=
  (GarminOAuthProvider.exchange_refresh_token c2State0 c2Client c2Rt [] 100
    "at1" "rt1").2

theorem exchange_refresh_token_single_use_witness :
    GarminOAuthProvider.load_refresh_token c2State1 c2Client "rt-old" 100 = none :=
  exchange_refresh_token_single_use c2State0 c2Client c2Client c2Rt [] 100 100
    "at1" "rt1" (by decide)

/-- C2 counterexample: a second direct call of exchange_refresh_token with the
already-rotated old token does not fail — it mints another token pair. -/
theorem exchange_refresh_token_twice_returns_pair :
    (GarminOAuthProvider.exchange_refresh_token c2State1 c2Client c2Rt [] 100
        "at2" "rt2").1
      = { access_token := "at2", token_type := "Bearer", expires_in := 3600,
          refresh_token := "rt2", scope := "activities" } := by
  decide

/-- load_access_token on a found, unexpired row returns its descriptor. -/
theorem load_access_token_found (st : ServerState) (token : String) (now : Nat)
    (row : AccessTokenRow)
    (hfind : st.accessTokens.find? (fun r => r.token == token) = some row)
    (hexp : ¬ row.expires_at < now) :
    (GarminOAuthProvider.load_access_token st token now).1
      = some { token := row.token, client_id := row.client_id,
               scopes := parseScopes row.scopes, expires_at := row.expires_at } := by
  unfold GarminOAuthProvider.load_access_token
  rw [hfind]
  simp only [if_neg hexp]

/-- C3 (amended): exchanging a code and then loading the returned access token
round-trips the exchanging client's id and the code's scopes, provided no
scope contains a comma and the scope list is not the single empty string
(that degenerate case breaks the comma-join/split round trip: see the
counterexample).  now2 ≤ now + 3600 keeps the fresh access token unexpired,
and the fresh token value is assumed absent from the table (primary key,
secrets.token_urlsafe). -/
theorem exchange_code_then_load_access_token (st : ServerState) (client : ClientInfo)
    (ac : AuthorizationCode) (now now2 : Nat) (freshAccess freshRefresh : String)
    (hscopes : ∀ s ∈ ac.scopes, (',' : Char) ∉ s.data)
    (hne : ac.scopes ≠ [""])
    (hnow : now2 ≤ now + 3600)
    (_hfresh : ∀ r ∈ st.accessTokens, r.token ≠ freshAccess) :
    (GarminOAuthProvider.load_access_token
        ((GarminOAuthProvider.exchange_authorization_code st client ac now
            freshAccess freshRefresh).2)
        freshAccess now2).1
      = some { token := freshAccess, client_id := client.client_id,
               scopes := ac.scopes, expires_at := now + 3600 } := by
  have hAT : ((GarminOAuthProvider.exchange_authorization_code st client ac now
      freshAccess freshRefresh).2).accessTokens
      = { token := freshAccess, client_id := client.client_id,
          user_id := (st.authCodes.find? (fun r => r.code == ac.code)).bind
            (fun row => row.user_id),
          scopes := joinScopes ac.scopes, expires_at := now + 3600 } :: st.accessTokens := by
    simp only [GarminOAuthProvider.exchange_authorization_code]
    rw [applyTokenMapping_accessTokens]
  have hfind := load_access_token_found
    ((GarminOAuthProvider.exchange_authorization_code st client ac now
        freshAccess freshRefresh).2) freshAccess now2
    { token := freshAccess, client_id := client.client_id,
      user_id := (st.authCodes.find? (fun r => r.code == ac.code)).bind
        (fun row => row.user_id),
      scopes := joinScopes ac.scopes, expires_at := now + 3600 }
    (by rw [hAT, List.find?_cons_of_pos _ (by simp)])
    (show ¬ now + 3600 < now2 by omega)
  rw [hfind]
  dsimp only
  rw [parseScopes_joinScopes ac.scopes hscopes hne]

def c3Client : ClientInfo := ⟨"client-1", "meta"⟩

def c3Code : AuthorizationCode :=
  ⟨"code-1", "client-1", ["activities", "sleep"], "ch", "https://cb", true, 1000⟩

def c3State0 : ServerState :=
  ⟨[], [], [⟨"code-1", "client-1", some "user-1", "activities,sleep", "ch",
    "https://cb", true, some "cs", 1000⟩], [], [], [], ⟨[], [], []⟩⟩

theorem exchange_code_then_load_access_token_witness :
    (GarminOAuthProvider.load_access_token
        ((GarminOAuthProvider.exchange_authorization_code c3State0 c3Client c3Code
            100 "at1" "rt1").2)
        "at1" 150).1
      = some { token := "at1", client_id := "client-1",
               scopes := ["activities", "sleep"], expires_at := 3700 } :=
  exchange_code_then_load_access_token c3State0 c3Client c3Code 100 150 "at1" "rt1"
    (by decide) (by decide) (by decide) (by decide)

/-- The original code descriptor whose scope list is the single empty string. -/
def c3EmptyScopeCode : AuthorizationCode :=
  ⟨"code-1", "client-1", [""], "ch", "https://cb", true, 1000⟩

/-- C3 counterexample: with scopes = [""] (no comma character anywhere), the
loaded descriptor's scopes are [], not the original [""]: the round trip as
claimed fails on this input. -/
theorem exchange_code_load_access_token_empty_scope_mismatch :
    ((GarminOAuthProvider.load_access_token
        ((GarminOAuthProvider.exchange_authorization_code c3State0 c3Client
            c3EmptyScopeCode 100 "at1" "rt1").2)
        "at1" 100).1
      = some { token := "at1", client_id := "client-1",
               scopes := [], expires_at := 3700 })
    ∧ ([] : List String) ≠ [""] := by
  constructor
  · decide
  · decide

/-- C9: exchange_refresh_token computes the minted scopes as
(scopes or refresh_token.scopes): an empty request carries the original
token's scopes forward unchanged into both stored rows and the returned
scope string, and a non-empty request is used as-is — no hypothesis relating
the requested scopes to the original grant is needed anywhere (no subset
validation).  The fresh access value is assumed absent from the table
(primary key, secrets.token_urlsafe). -/
theorem exchange_refresh_token_scope_handling (st : ServerState)
    (client : ClientInfo) (rt : RefreshToken) (scopes : List String) (now : Nat)
    (freshAccess freshRefresh : String)
    (_hfresh : ∀ r ∈ st.accessTokens, r.token ≠ freshAccess) :
    (GarminOAuthProvider.exchange_refresh_token st client rt scopes now
        freshAccess freshRefresh).1.scope
      = pyJoin ' ' (if scopes = [] then rt.scopes else scopes)
    ∧ ((GarminOAuthProvider.exchange_refresh_token st client rt scopes now
        freshAccess freshRefresh).2).accessTokens.find? (fun r => r.token == freshAccess)
      = some { token := freshAccess, client_id := client.client_id,
               user_id := (st.refreshTokens.find? (fun r => r.token == rt.token)).bind
                 (fun row => row.user_id),
               scopes := joinScopes (if scopes = [] then rt.scopes else scopes),
               expires_at := now + 3600 }
    ∧ ((GarminOAuthProvider.exchange_refresh_token st client rt scopes now
        freshAccess freshRefresh).2).refreshTokens.find? (fun r => r.token == freshRefresh)
      = some { token := freshRefresh, client_id := client.client_id,
               user_id := (st.refreshTokens.find? (fun r => r.token == rt.token)).bind
                 (fun row => row.user_id),
               scopes := joinScopes (if scopes = [] then rt.scopes else scopes),
               expires_at := some (now + 2592000) } := by
  unfold GarminOAuthProvider.exchange_refresh_token
  rw [applyTokenMapping_accessTokens, applyTokenMapping_refreshTokens]
  dsimp only
  refine ⟨rfl, ?_, ?_⟩
  · rw [List.find?_cons_of_pos _ (by simp)]
  · rw [List.find?_cons_of_pos _ (by simp)]

def c9Rt : RefreshToken := ⟨"rt-old", "client-1", ["activities"], some 5000⟩

def c9State0 : ServerState :=
  ⟨[], [], [], [],
   [⟨"rt-old", "client-1", some "user-1", "activities", some 5000⟩], [],
   ⟨[], [], []⟩⟩

/-- Witness for C9: an empty request carries the original scopes forward, and a
request for a scope that is not a subset of the original grant (workouts vs
activities) is still used verbatim. -/
theorem exchange_refresh_token_scope_handling_witness :
    ((GarminOAuthProvider.exchange_refresh_token c9State0 c2Client c9Rt [] 100
        "at1" "rt1").1.scope
      = pyJoin ' ' (if ([] : List String) = [] then c9Rt.scopes else []))
    ∧ ((GarminOAuthProvider.exchange_refresh_token c9State0 c2Client c9Rt
          ["workouts"] 100 "at1" "rt1").1.scope
      = pyJoin ' ' (if (["workouts"] : List String) = [] then c9Rt.scopes else ["workouts"]))
    ∧ ((GarminOAuthProvider.exchange_refresh_token c9State0 c2Client c9Rt
          ["workouts"] 100 "at1" "rt1").2).accessTokens.find?
        (fun r => r.token == "at1")
      = some { token := "at1", client_id := "client-1",
               user_id := (c9State0.refreshTokens.find?
                 (fun r => r.token == c9Rt.token)).bind (fun row => row.user_id),
               scopes := joinScopes (if (["workouts"] : List String) = [] then c9Rt.scopes
                 else ["workouts"]),
               expires_at := 3700 } :=
  ⟨(exchange_refresh_token_scope_handling c9State0 c2Client c9Rt [] 100 "at1" "rt1"
      (by decide)).1,
   (exchange_refresh_token_scope_handling c9State0 c2Client c9Rt ["workouts"] 100
      "at1" "rt1" (by decide)).1,
   (exchange_refresh_token_scope_handling c9State0 c2Client c9Rt ["workouts"] 100
      "at1" "rt1" (by decide)).2.1⟩

/-- SELECT ... WHERE code = ? AND client_id = ? AND user_id IS NOT NULL followed
by the expiry check finds an unexpired row exactly when such a row is in the
table, given that codes are unique (primary key). -/
theorem find?_valid_auth_iff (l : List AuthCodeRow) (cid code : String) (now : Nat) :
    l.Pairwise (fun a b => a.code ≠ b.code) →
    ((∃ row, l.find? (fun r =>
        r.code == code && r.client_id == cid && r.user_id.isSome) = some row
      ∧ ¬ row.expires_at < now)
    ↔ ∃ r ∈ l, r.code = code ∧ r.client_id = cid ∧ r.user_id ≠ none
        ∧ now ≤ r.expires_at) := by
  induction l with
  | nil => intro _; simp
  | cons a t ih =>
    intro hwf
    obtain ⟨ha, ht⟩ := List.pairwise_cons.1 hwf
    by_cases hp : (a.code == code && a.client_id == cid && a.user_id.isSome) = true
    · have hfind : (a :: t).find? (fun r =>
          r.code == code && r.client_id == cid && r.user_id.isSome) = some a :=
        List.find?_cons_of_pos t hp
      rw [hfind]
      obtain ⟨⟨hc, hcid⟩, hu⟩ :
          ((a.code = code ∧ a.client_id = cid) ∧ a.user_id.isSome = true) := by
        simpa [Bool.and_eq_true, beq_iff_eq] using hp
      constructor
      · rintro ⟨row, hrow, hexp⟩
        obtain rfl : a = row := Option.some.inj hrow
        exact ⟨a, List.mem_cons_self a t, hc, hcid,
          Option.ne_none_iff_isSome.2 hu, Nat.le_of_not_lt hexp⟩
      · rintro ⟨r, hr, hrc, hrcid, hru, hrexp⟩
        rcases List.mem_cons.1 hr with rfl | hrt
        · exact ⟨r, rfl, Nat.not_lt.2 hrexp⟩
        · exact absurd (hc.trans hrc.symm) (ha r hrt)
    · have hfind : (a :: t).find? (fun r =>
          r.code == code && r.client_id == cid && r.user_id.isSome)
          = t.find? (fun r => r.code == code && r.client_id == cid && r.user_id.isSome) :=
        List.find?_cons_of_neg t hp
      rw [hfind, ih ht]
      constructor
      · rintro ⟨r, hr, rest⟩
        exact ⟨r, List.mem_cons_of_mem a hr, rest⟩
      · rintro ⟨r, hr, hrc, hrcid, hru, hrexp⟩
        rcases List.mem_cons.1 hr with rfl | hrt
        · exact absurd (by simp [Bool.and_eq_true, beq_iff_eq, hrc, hrcid,
            Option.isSome_iff_ne_none, hru]) hp
        · exact ⟨r, hrt, hrc, hrcid, hru, hrexp⟩

/-- C5: load_authorization_code returns a descriptor exactly when a row with
that code exists, belongs to the given client, has a non-null user id, and has
not expired (codes being unique, as the primary key guarantees); and the
placeholder row inserted by authorize (user id still NULL) loads as nothing
before login completes, for any client and any time. -/
theorem load_authorization_code_spec :
    (∀ (st : ServerState) (client : ClientInfo) (code : String) (now : Nat),
      st.authCodes.Pairwise (fun a b => a.code ≠ b.code) →
      ((GarminOAuthProvider.load_authorization_code st client code now).isSome = true ↔
        ∃ r ∈ st.authCodes, r.code = code ∧ r.client_id = client.client_id ∧
          r.user_id ≠ none ∧ now ≤ r.expires_at))
    ∧ (∀ (st : ServerState) (client client2 : ClientInfo)
        (params : AuthorizationParams) (state_token server_url : String)
        (now now2 : Nat),
      (∀ r ∈ st.authCodes, r.code ≠ state_token) →
      GarminOAuthProvider.load_authorization_code
        ((GarminOAuthProvider.authorize st client params state_token now server_url).2)
        client2 state_token now2 = none) := by
  constructor
  · intro st client code now hwf
    rw [← find?_valid_auth_iff st.authCodes client.client_id code now hwf]
    unfold GarminOAuthProvider.load_authorization_code
    cases hf : st.authCodes.find? (fun r =>
        r.code == code && r.client_id == client.client_id && r.user_id.isSome) with
    | none => simp
    | some row =>
      by_cases he : row.expires_at < now
      · simp [he]
      · simp [he, Nat.le_of_not_lt he]
  · intro st client client2 params state_token server_url now now2 hfree
    unfold GarminOAuthProvider.load_authorization_code GarminOAuthProvider.authorize
    dsimp only
    rw [List.find?_eq_none.2 ?hnone]
    case hnone =>
      intro x hx
      rcases List.mem_cons.1 hx with rfl | hxt
      · simp
      · simp only [Bool.and_eq_true, beq_iff_eq]
        rintro ⟨⟨h1, h2⟩, h3⟩
        exact hfree x hxt h1

def c5Client : ClientInfo := ⟨"client-1", "meta"⟩

def c5State : ServerState :=
  ⟨[], [], [⟨"c1", "client-1", some "user-1", "activities", "ch", "https://cb",
    true, none, 1000⟩], [], [], [], ⟨[], [], []⟩⟩

def c5Params : AuthorizationParams :=
  ⟨some ["activities"], "ch", "https://cb", true, some "xyz"⟩

theorem load_authorization_code_spec_witness :
    ((GarminOAuthProvider.load_authorization_code c5State c5Client "c1" 100).isSome
      = true)
    ∧ (GarminOAuthProvider.load_authorization_code
        ((GarminOAuthProvider.authorize c5State c5Client c5Params "s9" 100
            "https://srv").2)
        c5Client "s9" 120 = none) :=
  ⟨(load_authorization_code_spec.1 c5State c5Client "c1" 100 (by decide)).2
      (by decide),
   load_authorization_code_spec.2 c5State c5Client c5Client c5Params "s9"
      "https://srv" 100 120 (by decide)⟩

/-- C6: if the pending MFA entry for the state token exists and is unexpired
but upstream verification fails, handle_mfa_callback re-renders the MFA form
with an error and restores the popped entry under the same state token — the
registry maps every key exactly as before the attempt, so one more attempt
with that state token can succeed; a state token whose entry is missing or
expired gets the terminal session-expired page. -/
theorem handle_mfa_callback_spec (st : ServerState) (state mfa_code : String)
    (now : Nat) (resume_login : String → String → Option (String × String))
    (freshUserId freshAuthCode : String) (p : PendingMfa)
    (hstate : state ≠ "") (hcode : mfa_code ≠ "") :
    ((lookupD st.pendingMfa state = some p → p.is_expired now = false →
      resume_login p.client_state mfa_code = none →
      (GarminOAuthProvider.handle_mfa_callback st state mfa_code now resume_login
          freshUserId freshAuthCode
        = (.mfaPage state "Invalid verification code. Please try again.",
           { st with pendingMfa := insertD (removeD st.pendingMfa state) state p }))
      ∧ (∀ k, lookupD (insertD (removeD st.pendingMfa state) state p) k
          = lookupD st.pendingMfa k))
    ∧ ((lookupD st.pendingMfa state = none ∨
        (lookupD st.pendingMfa state = some p ∧ p.is_expired now = true)) →
      (GarminOAuthProvider.handle_mfa_callback st state mfa_code now resume_login
          freshUserId freshAuthCode).1
        = .htmlResponse sessionExpiredBody 400)) := by
  constructor
  · intro hl hexp hres
    constructor
    · unfold GarminOAuthProvider.handle_mfa_callback
      split
      · rename_i hcond
        simp [hstate, hcode] at hcond
      · rw [hl]
        dsimp only
        rw [if_neg (by simp [hexp]), hres]
        dsimp only
        have hg : GarminOAuthProvider.get_mfa_page
            { st with pendingMfa := insertD (removeD st.pendingMfa state) state p }
            state "Invalid verification code. Please try again." now
            = .mfaPage state "Invalid verification code. Please try again." := by
          unfold GarminOAuthProvider.get_mfa_page
          dsimp only
          rw [lookupD_insertD_self]
          dsimp only
          rw [if_neg (by simp [hexp])]
        exact Prod.ext hg rfl
    · intro k
      rw [lookupD_insertD, lookupD_removeD]
      by_cases hk : k = state
      · rw [if_pos hk, hk, hl]
      · rw [if_neg hk, if_neg hk]
  · intro hdisj
    rcases hdisj with hnone | ⟨hsome, hexp⟩
    · unfold GarminOAuthProvider.handle_mfa_callback
      split
      · rename_i hcond
        simp [hstate, hcode] at hcond
      · rw [hnone]
    · unfold GarminOAuthProvider.handle_mfa_callback
      split
      · rename_i hcond
        simp [hstate, hcode] at hcond
      · rw [hsome]
        dsimp only
        rw [if_pos hexp]

def c6Pending : PendingMfa := ⟨"cs", "u@example.com", 0⟩

/-- A server state with one live pending-MFA entry for state token s1. -/
def c6StateA : ServerState := ⟨[], [], [], [], [], [("s1", c6Pending)], ⟨[], [], []⟩⟩

/-- A server state with no pending-MFA entry at all. -/
def c6StateB : ServerState := ⟨[], [], [], [], [], [], ⟨[], [], []⟩⟩

theorem handle_mfa_callback_spec_witness :
    (GarminOAuthProvider.handle_mfa_callback c6StateA "s1" "123456" 10
        (fun _ _ => none) "fu" "fc"
      = (.mfaPage "s1" "Invalid verification code. Please try again.",
         { c6StateA with
            pendingMfa := insertD (removeD c6StateA.pendingMfa "s1") "s1" c6Pending }))
    ∧ ((GarminOAuthProvider.handle_mfa_callback c6StateB "s1" "123456" 10
        (fun _ _ => none) "fu" "fc").1
      = .htmlResponse sessionExpiredBody 400) :=
  ⟨((handle_mfa_callback_spec c6StateA "s1" "123456" 10 (fun _ _ => none) "fu" "fc"
      c6Pending (by decide) (by decide)).1 (by decide) (by decide) rfl).1,
   (handle_mfa_callback_spec c6StateB "s1" "123456" 10 (fun _ _ => none) "fu" "fc"
      c6Pending (by decide) (by decide)).2 (Or.inl (by decide))⟩

end GarminMcp
